import Mathlib

/-!
Verification development for the tiny-circuit-breaker Go program.

The file embeds `circuitbreaker.go` shallowly in Lean:
- Times (`time.Time`, `time.Duration`) are `Int` nanosecond counts; the Go
  zero value `time.Time\x7b\x7d` is the integer 0, and wall-clock readings taken
  during a call are supplied as explicit inputs.
- `interface\x7b\x7d` content is `Option String` (`none` is Go `nil`).
- Go `error` values are `Option String` carrying the message produced by the
  corresponding `fmt` format string (`none` is Go `nil`).
- The impure `Callable` fields are externalized: the settings keep only the
  presence of service and fallback, while the result each would produce on a
  given call arrives as an oracle input (`RaceOutcome` for the service race
  inside `callService`, a content/error pair for the fallback).
- Event hooks are modelled by a presence flag plus the list of hook events a
  call fires, in order.
-/

namespace TinyCB

/-- CircuitState mirrors the three Go constants: closed, half-open and open. -/
inductive CircuitState where
  | IsClosed
  | IsHalfOpen
  | IsOpen
  deriving DecidableEq, Repr

/-- Default timeout constant from the source (the typo is the source name). -/
def DefautTimeout : Int := 2000

/-- Default retry time period constant from the source. -/
def DefaultRetryTimePeriod : Int := 3000

/-- Default failure threshold constant from the source (typo kept). -/
def DefautlFailureThreshold : Int := 2

/-- Signed 64-bit wraparound, the semantics of Go int64 multiplication
overflow inside `State`. -/
def wrap64 (x : Int) : Int := (x + 2 ^ 63) % 2 ^ 64 - 2 ^ 63

/-- CircuitSettings from the source. `hasService` and `hasFallback` record
whether the corresponding `Callable` field is non-nil; the three hook fields
record whether the corresponding callback is registered. -/
structure CircuitSettings where
  hasService : Bool
  hasFallback : Bool
  Timeout : Int
  RetryTimePeriod : Int
  FailureThreshold : Int
  OnTrip : Bool
  OnReset : Bool
  OnStateChange : Bool
  deriving DecidableEq, Repr

/-- CircuitBreaker struct from the source. -/
structure CircuitBreaker where
  Settings : CircuitSettings
  LastFailureTime : Int
  FailureCount : Int
  FailureRecord : List String
  deriving DecidableEq, Repr

/-- NewCircuitBreaker from the source: reject a nil service, then default the
three zero-valued numeric settings and build the breaker with cleared
counters. -/
def NewCircuitBreaker (settings : CircuitSettings) : Except String CircuitBreaker :=
  if settings.hasService = false then
    Except.error "You must provide a service to be called"
  else
    let settings1 :=
      if settings.Timeout = 0 then { settings with Timeout := DefautTimeout } else settings
    let settings2 :=
      if settings1.RetryTimePeriod = 0 then
        { settings1 with RetryTimePeriod := DefaultRetryTimePeriod }
      else settings1
    let settings3 :=
      if settings2.FailureThreshold = 0 then
        { settings2 with FailureThreshold := DefautlFailureThreshold }
      else settings2
    Except.ok
      { Settings := settings3
        LastFailureTime := 0
        FailureCount := 0
        FailureRecord := [] }

/-- State from the source. `now` is the value `time.Now()` reads. The source
computes `time.Now().Sub(cb.LastFailureTime) * time.Millisecond`: the elapsed
nanoseconds multiplied by 1000000 (with int64 wraparound), compared against
`RetryTimePeriod`. -/
def CircuitBreaker.State (cb : CircuitBreaker) (now : Int) : CircuitState :=
  if cb.FailureCount ≥ cb.Settings.FailureThreshold then
    let gracePeriod := wrap64 ((now - cb.LastFailureTime) * 1000000)
    if gracePeriod > cb.Settings.RetryTimePeriod then
      CircuitState.IsHalfOpen
    else
      CircuitState.IsOpen
  else
    CircuitState.IsClosed

/-- Outcome of the race inside `callService` between the service goroutine and
the timeout timer: either the service response arrives first (with its content
and error), or the timer fires first. -/
inductive RaceOutcome where
  | completed (content : Option String) (error : Option String)
  | timedOut
  deriving DecidableEq, Repr

/-- Message of the CallingError wrapper type from the source. -/
def callingErrorMsg (cause : String) : String :=
  "Error when calling service: " ++ cause

/-- callService from the source: surface a service error as a CallingError,
treat nil content as the "Service respond is nil" CallingError, return non-nil
content as success, and surface a timer win as the timed-out CallingError
mentioning the configured Timeout value. -/
def CircuitBreaker.callService (cb : CircuitBreaker) (svc : RaceOutcome) :
    Option String × Option String :=
  match svc with
  | RaceOutcome.completed content error =>
    match error with
    | some e => (none, some (callingErrorMsg e))
    | none =>
      match content with
      | none => (none, some (callingErrorMsg "Service respond is nil"))
      | some c => (some c, none)
  | RaceOutcome.timedOut =>
    (none,
      some (callingErrorMsg
        ("Service timed out after " ++ toString cb.Settings.Timeout ++ " milliseconds")))

/-- mayCallFallback from the source. `fb` is the content/error pair the
fallback would return if invoked; when no fallback is configured the
source returns `(nil, false, nil)`. -/
def CircuitBreaker.mayCallFallback (cb : CircuitBreaker)
    (fb : Option String × Option String) : Option String × Bool × Option String :=
  if cb.Settings.hasFallback = false then
    (none, false, none)
  else
    (fb.1, true, fb.2)

/-- Shared body of the IsHalfOpen/IsClosed cases of `selectiveCall` (the Go
switch falls through from IsHalfOpen to IsClosed): call the service within the
timeout; on error try the fallback, composing the error messages exactly as
the source format strings do; on success return the content with no error. -/
def CircuitBreaker.passthroughCall (cb : CircuitBreaker) (svc : RaceOutcome)
    (fb : Option String × Option String) : Option String × Bool × Option String :=
  let s := cb.callService svc
  match s.2 with
  | some e =>
    let r := cb.mayCallFallback fb
    if r.2.1 then
      match r.2.2 with
      | some fe =>
        (r.1, r.2.1,
          some ("Service was fallbacked due to error but failed too: " ++ fe ++ ": " ++ e))
      | none => (r.1, r.2.1, some ("Service was fallbacked due to error: " ++ e))
    else
      (r.1, false, some e)
  | none => (s.1, false, none)

/-- selectiveCall from the source. In the IsOpen case the service is never
consulted: only the fallback runs, and the returned error always describes the
open-state rejection, wrapping the fallback error when there is one. -/
def CircuitBreaker.selectiveCall (cb : CircuitBreaker) (state : CircuitState)
    (svc : RaceOutcome) (fb : Option String × Option String) :
    Option String × Bool × Option String :=
  match state with
  | CircuitState.IsOpen =>
    let r := cb.mayCallFallback fb
    match r.2.2 with
    | some e =>
      (r.1, r.2.1, some ("Service was fallbacked due to open state but failed too: " ++ e))
    | none => (r.1, r.2.1, some "Service was fallbacked due to open state")
  | CircuitState.IsHalfOpen => cb.passthroughCall svc fb
  | CircuitState.IsClosed => cb.passthroughCall svc fb

/-- resetState from the source: zero the count, clear the record, clear the
last-failure time back to the zero value. -/
def CircuitBreaker.resetState (cb : CircuitBreaker) : CircuitBreaker :=
  { cb with FailureCount := 0, FailureRecord := [], LastFailureTime := 0 }

/-- recordFailure from the source: increment the count, stamp `now`, and
append the error message (or the default relying-on-fallback message when the
error is nil). -/
def CircuitBreaker.recordFailure (cb : CircuitBreaker) (now : Int)
    (err : Option String) : CircuitBreaker :=
  let msg :=
    match err with
    | none => "Service is relying on fallback"
    | some e => e
  { cb with
      FailureCount := cb.FailureCount + 1
      LastFailureTime := now
      FailureRecord := cb.FailureRecord ++ [msg] }

/-- Hook events a call can fire, in the order `notifyState` fires them. -/
inductive HookEvent where
  | stateChange
  | trip
  | reset
  deriving DecidableEq, Repr

/-- notifyState from the source, returning the list of hooks fired in order:
nothing when the state did not change; otherwise the generic state-change hook
first (when registered), then the trip hook on IsOpen or the reset hook on
IsClosed (when registered). -/
def CircuitBreaker.notifyState (cb : CircuitBreaker)
    (preState newState : CircuitState) : List HookEvent :=
  if newState ≠ preState then
    (if cb.Settings.OnStateChange then [HookEvent.stateChange] else []) ++
      (match newState with
       | CircuitState.IsOpen => if cb.Settings.OnTrip then [HookEvent.trip] else []
       | CircuitState.IsClosed => if cb.Settings.OnReset then [HookEvent.reset] else []
       | CircuitState.IsHalfOpen => [])
  else []

/-- Per-call oracle: the three `time.Now()` readings a call makes (pre-call
state, recordFailure stamp, post-call state) and what the service race and the
fallback would produce on this call. -/
structure CallEnv where
  tPre : Int
  tFail : Int
  tPost : Int
  svc : RaceOutcome
  fb : Option String × Option String
  deriving DecidableEq, Repr

/-- Values a call returns and observes: the three results of the Go `Call`,
the pre and post states it derived, and the hooks it fired. -/
structure CallResult where
  content : Option String
  fallbacked : Bool
  error : Option String
  preState : CircuitState
  postState : CircuitState
  hooks : List HookEvent
  deriving DecidableEq, Repr

/-- Call from the source: derive the pre state, dispatch, record the failure
when the outcome was fallbacked and otherwise reset, derive the post state and
notify. Returns the updated breaker and the observable result. -/
def CircuitBreaker.Call (cb : CircuitBreaker) (env : CallEnv) :
    CircuitBreaker × CallResult :=
  let preState := cb.State env.tPre
  let out := cb.selectiveCall preState env.svc env.fb
  let cb2 := if out.2.1 then cb.recordFailure env.tFail out.2.2 else cb.resetState
  let newState := cb2.State env.tPost
  (cb2,
    { content := out.1
      fallbacked := out.2.1
      error := out.2.2
      preState := preState
      postState := newState
      hooks := cb2.notifyState preState newState })

/-- Run a sequence of calls left to right, keeping the breaker state. -/
def runCalls (cb : CircuitBreaker) (envs : List CallEnv) : CircuitBreaker :=
  envs.foldl (fun c e => (c.Call e).1) cb

/-- State derivation rule as the claim C1 words it (and as the spec section
4.1 words it): elapsed time and grace period compared in the same unit with no
extra scaling. Declared only to exhibit its divergence from the source
function `CircuitBreaker.State`. -/
def claimedState (failureCount threshold lastFailureTime retryTimePeriod now : Int) :
    CircuitState :=
  if failureCount < threshold then CircuitState.IsClosed
  else if now - lastFailureTime > retryTimePeriod then CircuitState.IsHalfOpen
  else CircuitState.IsOpen

/-- Concrete breaker for the C1 divergence: threshold reached, last failure
at time 0, grace period 3000 (the default), observed 1000 nanoseconds later. -/
def cbC1 : CircuitBreaker :=
  { Settings :=
      { hasService := true, hasFallback := true, Timeout := 2000,
        RetryTimePeriod := 3000, FailureThreshold := 2,
        OnTrip := false, OnReset := false, OnStateChange := false }
    LastFailureTime := 0
    FailureCount := 2
    FailureRecord := ["e1", "e2"] }

/-- C1: the source `State` scales the elapsed time by an extra factor of
1000000 before comparing it with the grace period, so with failure count at
the threshold, 1000 time units elapsed and a grace period of 3000 it returns
Probing, while the claimed same-unit rule (elapsed 1000 at most grace 3000)
requires Blocked. The code diverges from the claimed three-way rule. -/
theorem c1_state_scaling_bug :
    cbC1.FailureCount ≥ cbC1.Settings.FailureThreshold ∧
    (1000 : Int) - cbC1.LastFailureTime ≤ cbC1.Settings.RetryTimePeriod ∧
    cbC1.State 1000 = CircuitState.IsHalfOpen ∧
    claimedState cbC1.FailureCount cbC1.Settings.FailureThreshold cbC1.LastFailureTime
      cbC1.Settings.RetryTimePeriod 1000 = CircuitState.IsOpen := by
  refine ⟨by decide, by decide, by decide, by decide⟩

/-- Concrete breaker for the C2 divergence: no fallback configured, fresh
counters. -/
def cbC2 : CircuitBreaker :=
  { Settings :=
      { hasService := true, hasFallback := false, Timeout := 2000,
        RetryTimePeriod := 3000, FailureThreshold := 2,
        OnTrip := false, OnReset := false, OnStateChange := false }
    LastFailureTime := 0
    FailureCount := 0
    FailureRecord := [] }

/-- Call environment for the C2 divergence: the service times out. -/
def envC2 : CallEnv :=
  { tPre := 100, tFail := 110, tPost := 120, svc := RaceOutcome.timedOut, fb := (none, none) }

/-- C2: a failing call (the bounded invocation timed out and the returned
error is non-nil) on a breaker with no fallback leaves the failure count at 0,
the failure record empty and the last-failure time cleared: the source resets
instead of recording, contradicting the claim that every failing call
increments the count and appends one log entry. -/
theorem c2_failing_call_without_fallback_not_recorded :
    (cbC2.callService envC2.svc).2.isSome = true ∧
    ((cbC2.Call envC2).2.error).isSome = true ∧
    (cbC2.Call envC2).2.fallbacked = false ∧
    (cbC2.Call envC2).1.FailureCount = 0 ∧
    (cbC2.Call envC2).1.FailureRecord = [] ∧
    (cbC2.Call envC2).1.LastFailureTime = 0 := by
  refine ⟨rfl, rfl, rfl, rfl, rfl, rfl⟩

/-- Concrete breaker for the C3 divergence: no fallback configured, one
failure already on record. -/
def cbC3 : CircuitBreaker :=
  { Settings :=
      { hasService := true, hasFallback := false, Timeout := 2000,
        RetryTimePeriod := 3000, FailureThreshold := 2,
        OnTrip := false, OnReset := false, OnStateChange := false }
    LastFailureTime := 50
    FailureCount := 1
    FailureRecord := ["Error when calling service: boom"] }

/-- Call environment for the C3 divergence: the service completes with an
error. -/
def envC3 : CallEnv :=
  { tPre := 100, tFail := 110, tPost := 120,
    svc := RaceOutcome.completed none (some "boom"), fb := (none, none) }

/-- C3: on a breaker with one recorded failure and no fallback, a call whose
target invocation fails (non-nil error, not a genuine success) performs the
full counter reset: count back to 0, record cleared, timestamp cleared. The
source resets on a target failure, contradicting the claim that the reset
happens only on a genuine success. -/
theorem c3_reset_despite_target_failure :
    (cbC3.callService envC3.svc).2.isSome = true ∧
    ((cbC3.Call envC3).2.error).isSome = true ∧
    cbC3.FailureCount = 1 ∧
    (cbC3.Call envC3).1.FailureCount = 0 ∧
    (cbC3.Call envC3).1.FailureRecord = [] ∧
    (cbC3.Call envC3).1.LastFailureTime = 0 := by
  refine ⟨rfl, rfl, rfl, rfl, rfl, rfl⟩

/-- Helper: the breaker returned by a call keeps the settings unchanged. -/
theorem call_settings_eq (cb : CircuitBreaker) (env : CallEnv) :
    ((cb.Call env).1).Settings = cb.Settings := by
  simp only [CircuitBreaker.Call]
  split <;> rfl

/-- Helper: full case analysis of `notifyState`: nothing fires on an unchanged
state; the trip hook is fired exactly for a registered trip hook on a change
into IsOpen; the reset hook exactly for a registered reset hook on a change
into IsClosed; the generic hook exactly for a registered generic hook on any
change, and it is fired first. -/
theorem notifyState_spec (cb : CircuitBreaker) (pre new : CircuitState) :
    ((pre = new) → cb.notifyState pre new = []) ∧
    (HookEvent.trip ∈ cb.notifyState pre new ↔
      cb.Settings.OnTrip = true ∧ new = CircuitState.IsOpen ∧ pre ≠ CircuitState.IsOpen) ∧
    (HookEvent.reset ∈ cb.notifyState pre new ↔
      cb.Settings.OnReset = true ∧ new = CircuitState.IsClosed ∧ pre ≠ CircuitState.IsClosed) ∧
    (HookEvent.stateChange ∈ cb.notifyState pre new ↔
      cb.Settings.OnStateChange = true ∧ new ≠ pre) ∧
    (new ≠ pre → cb.Settings.OnStateChange = true →
      (cb.notifyState pre new).head? = some HookEvent.stateChange) := by
  cases pre <;> cases new <;>
    cases ht : cb.Settings.OnTrip <;> cases hr : cb.Settings.OnReset <;>
    cases hs : cb.Settings.OnStateChange <;>
    simp [CircuitBreaker.notifyState, ht, hr, hs]

/-- Helper: recording a failure at time `now` and deriving the state at that
same instant yields IsOpen, provided the incremented count reaches the
threshold and the retry period is non-negative. -/
theorem recordFailure_state_open (cb : CircuitBreaker) (now : Int) (err : Option String)
    (hcount : cb.Settings.FailureThreshold ≤ cb.FailureCount + 1)
    (hretry : 0 ≤ cb.Settings.RetryTimePeriod) :
    (cb.recordFailure now err).State now = CircuitState.IsOpen := by
  simp [CircuitBreaker.recordFailure, CircuitBreaker.State, wrap64]
  rw [if_pos hcount, if_neg (by omega)]

/-- Helper: a single call preserves the invariant that the failure count
equals the length of the failure record. -/
theorem call_preserves_count_record (cb : CircuitBreaker) (env : CallEnv)
    (h : cb.FailureCount = (cb.FailureRecord.length : Int)) :
    (cb.Call env).1.FailureCount = (((cb.Call env).1.FailureRecord.length : Int)) := by
  have heq : (cb.Call env).1 =
      (if (cb.selectiveCall (cb.State env.tPre) env.svc env.fb).2.1 then
        cb.recordFailure env.tFail (cb.selectiveCall (cb.State env.tPre) env.svc env.fb).2.2
      else cb.resetState) := rfl
  rw [heq]
  split
  · simp [CircuitBreaker.recordFailure, h]
  · simp [CircuitBreaker.resetState]

/-- Helper: the count/record-length invariant is preserved by any sequence of
calls. -/
theorem runCalls_inv (envs : List CallEnv) (cb : CircuitBreaker)
    (h : cb.FailureCount = (cb.FailureRecord.length : Int)) :
    (runCalls cb envs).FailureCount = ((runCalls cb envs).FailureRecord.length : Int) := by
  induction envs generalizing cb with
  | nil => simpa [runCalls] using h
  | cons e es ih =>
    simp only [runCalls, List.foldl_cons] at ih ⊢
    exact ih _ (call_preserves_count_record cb e h)

/-- Helper: any breaker the constructor returns starts with a zero failure
count and an empty failure record. -/
theorem newCB_fields (s : CircuitSettings) (cb : CircuitBreaker)
    (h : NewCircuitBreaker s = Except.ok cb) :
    cb.FailureCount = 0 ∧ cb.FailureRecord = [] := by
  unfold NewCircuitBreaker at h
  split at h
  · simp at h
  · injection h with h2
    subst h2
    exact ⟨rfl, rfl⟩

/-- C4: the error returned by Call is nil exactly when the pre-call state let
the target run (it was not IsOpen) and the service race completed with
non-nil content and nil error; moreover every fallbacked outcome and every
call entered in the IsOpen state carries a non-nil error. -/
theorem c4_error_iff_genuine_success (cb : CircuitBreaker) (env : CallEnv) :
    ((cb.Call env).2.error = none ↔
      ((cb.Call env).2.preState ≠ CircuitState.IsOpen ∧
        ∃ c, env.svc = RaceOutcome.completed (some c) none)) ∧
    ((cb.Call env).2.fallbacked = true → ((cb.Call env).2.error).isSome = true) ∧
    ((cb.Call env).2.preState = CircuitState.IsOpen → ((cb.Call env).2.error).isSome = true) := by
  rcases env with ⟨tPre, tFail, tPost, svc, ⟨fbc, fbe⟩⟩
  simp only [CircuitBreaker.Call]
  generalize cb.State tPre = st
  cases st <;> cases hf : cb.Settings.hasFallback <;>
    rcases svc with ⟨_ | c, _ | e⟩ | _ <;> rcases fbe with _ | fe <;>
    simp [CircuitBreaker.selectiveCall, CircuitBreaker.passthroughCall,
      CircuitBreaker.callService, CircuitBreaker.mayCallFallback, hf]

/-- Concrete closed breaker and successful environment instantiating C4. -/
def cbW4 : CircuitBreaker :=
  { Settings :=
      { hasService := true, hasFallback := true, Timeout := 2000,
        RetryTimePeriod := 3000, FailureThreshold := 2,
        OnTrip := false, OnReset := false, OnStateChange := false }
    LastFailureTime := 0
    FailureCount := 0
    FailureRecord := [] }

/-- Environment for the C4 witness: the service answers with content. -/
def envW4 : CallEnv :=
  { tPre := 10, tFail := 20, tPost := 30,
    svc := RaceOutcome.completed (some "ok") none, fb := (none, none) }

/-- Witness for C4 at a concrete genuine success. -/
theorem c4_error_iff_genuine_success_witness : (cbW4.Call envW4).2.error = none :=
  (c4_error_iff_genuine_success cbW4 envW4).1.mpr ⟨by decide, "ok", rfl⟩

/-- C5: with the pre-call state IsOpen the target is never consulted (the call
result does not depend on the service oracle); with a fallback configured the
call returns the fallback content marked fallbacked together with the
open-state rejection error, wrapping the fallback error when there is one;
with no fallback it returns nil content, not fallbacked, and the rejection
error. -/
theorem c5_blocked_call_dispatch (cb : CircuitBreaker) (env : CallEnv)
    (h : cb.State env.tPre = CircuitState.IsOpen) :
    (∀ svc, cb.Call { env with svc := svc } = cb.Call env) ∧
    (cb.Settings.hasFallback = true →
      (cb.Call env).2.content = env.fb.1 ∧ (cb.Call env).2.fallbacked = true ∧
      (cb.Call env).2.error =
        some (match env.fb.2 with
          | some e => "Service was fallbacked due to open state but failed too: " ++ e
          | none => "Service was fallbacked due to open state")) ∧
    (cb.Settings.hasFallback = false →
      (cb.Call env).2.content = none ∧ (cb.Call env).2.fallbacked = false ∧
      (cb.Call env).2.error = some "Service was fallbacked due to open state") := by
  rcases env with ⟨tPre, tFail, tPost, svc0, ⟨fbc, fbe⟩⟩
  simp only at h
  refine ⟨fun svc => ?_, fun hf => ?_, fun hf => ?_⟩ <;>
    cases hf2 : cb.Settings.hasFallback <;>
    rcases fbe with _ | fe <;>
    simp_all [CircuitBreaker.Call, CircuitBreaker.selectiveCall,
      CircuitBreaker.mayCallFallback]

/-- Concrete blocked breaker with no fallback for the C5 witness. -/
def cbW5 : CircuitBreaker :=
  { Settings :=
      { hasService := true, hasFallback := false, Timeout := 2000,
        RetryTimePeriod := 3000, FailureThreshold := 2,
        OnTrip := false, OnReset := false, OnStateChange := false }
    LastFailureTime := 0
    FailureCount := 2
    FailureRecord := ["e1", "e2"] }

/-- Environment for the C5 witness: observed at the failure instant. -/
def envW5 : CallEnv :=
  { tPre := 0, tFail := 5, tPost := 5, svc := RaceOutcome.timedOut, fb := (none, none) }

/-- Witness for C5 at a concrete blocked call with no fallback. -/
theorem c5_blocked_call_dispatch_witness :
    (cbW5.Call envW5).2.content = none ∧ (cbW5.Call envW5).2.fallbacked = false ∧
    (cbW5.Call envW5).2.error = some "Service was fallbacked due to open state" :=
  (c5_blocked_call_dispatch cbW5 envW5 (by decide)).2.2 rfl

/-- C6: per call, no hook fires when the pre and post state agree; the trip
hook fires exactly when registered with post-state IsOpen and a different pre
state; the reset hook exactly when registered with post-state IsClosed and a
different pre state; the generic state-change hook exactly when registered and
the state changed, and when it fires it fires first. -/
theorem c6_hook_firing (cb : CircuitBreaker) (env : CallEnv) :
    ((cb.Call env).2.preState = (cb.Call env).2.postState → (cb.Call env).2.hooks = []) ∧
    (HookEvent.trip ∈ (cb.Call env).2.hooks ↔
      cb.Settings.OnTrip = true ∧ (cb.Call env).2.postState = CircuitState.IsOpen ∧
        (cb.Call env).2.preState ≠ CircuitState.IsOpen) ∧
    (HookEvent.reset ∈ (cb.Call env).2.hooks ↔
      cb.Settings.OnReset = true ∧ (cb.Call env).2.postState = CircuitState.IsClosed ∧
        (cb.Call env).2.preState ≠ CircuitState.IsClosed) ∧
    (HookEvent.stateChange ∈ (cb.Call env).2.hooks ↔
      cb.Settings.OnStateChange = true ∧ (cb.Call env).2.postState ≠ (cb.Call env).2.preState) ∧
    ((cb.Call env).2.postState ≠ (cb.Call env).2.preState →
      cb.Settings.OnStateChange = true →
      ((cb.Call env).2.hooks).head? = some HookEvent.stateChange) := by
  have key := notifyState_spec ((cb.Call env).1) ((cb.Call env).2.preState)
    ((cb.Call env).2.postState)
  rw [call_settings_eq] at key
  have hh : (cb.Call env).2.hooks =
      ((cb.Call env).1).notifyState ((cb.Call env).2.preState) ((cb.Call env).2.postState) := rfl
  rw [hh]
  exact key

/-- Concrete breaker one failure short of the threshold, trip hook registered,
for the C6 witness. -/
def cbW6 : CircuitBreaker :=
  { Settings :=
      { hasService := true, hasFallback := true, Timeout := 2000,
        RetryTimePeriod := 3000, FailureThreshold := 2,
        OnTrip := true, OnReset := true, OnStateChange := true }
    LastFailureTime := 0
    FailureCount := 1
    FailureRecord := ["e1"] }

/-- Environment for the C6 witness: a timed-out call that trips the circuit. -/
def envW6 : CallEnv :=
  { tPre := 10, tFail := 20, tPost := 20,
    svc := RaceOutcome.timedOut, fb := (some "cached", none) }

/-- Witness for C6: the concrete tripping call fires the trip hook. -/
theorem c6_hook_firing_witness : HookEvent.trip ∈ (cbW6.Call envW6).2.hooks :=
  (c6_hook_firing cbW6 envW6).2.1.mpr ⟨rfl, by decide, by decide⟩

/-- C8: classification of the bounded invocation. A completed response with a
non-nil error surfaces the operation error; a completed response with nil
content and nil error surfaces the invalid-empty-response failure; a completed
response with non-nil content and nil error is the success case; a timer win
surfaces the timed-out error mentioning the configured timeout value. -/
theorem c8_callService_classification (cb : CircuitBreaker) :
    (∀ c e, cb.callService (RaceOutcome.completed c (some e)) =
      (none, some (callingErrorMsg e))) ∧
    cb.callService (RaceOutcome.completed none none) =
      (none, some (callingErrorMsg "Service respond is nil")) ∧
    (∀ c, cb.callService (RaceOutcome.completed (some c) none) = (some c, none)) ∧
    cb.callService RaceOutcome.timedOut =
      (none,
        some (callingErrorMsg
          ("Service timed out after " ++ toString cb.Settings.Timeout ++ " milliseconds"))) := by
  refine ⟨fun c e => ?_, rfl, fun c => rfl, rfl⟩
  cases c <;> rfl

/-- Concrete breaker at the threshold with a fallback, for the C7
counterexample: spec scenario after two failures, grace period elapsed. -/
def cbC7 : CircuitBreaker :=
  { Settings :=
      { hasService := true, hasFallback := true, Timeout := 2000,
        RetryTimePeriod := 3000, FailureThreshold := 2,
        OnTrip := false, OnReset := false, OnStateChange := false }
    LastFailureTime := 0
    FailureCount := 2
    FailureRecord := ["e1", "e2"] }

/-- Environment for the C7 counterexample: the probing call times out. -/
def envC7 : CallEnv :=
  { tPre := 1000, tFail := 1010, tPost := 1010,
    svc := RaceOutcome.timedOut, fb := (some "cached", none) }

/-- C7 counterexample: a breaker at the threshold, in the Probing state, whose
probing call fails, ends with its failure count different from the threshold:
the source increments it to threshold + 1 instead of leaving it unchanged. -/
theorem c7_count_increment_counterexample :
    cbC7.FailureCount = cbC7.Settings.FailureThreshold ∧
    cbC7.Settings.hasFallback = true ∧
    cbC7.State envC7.tPre = CircuitState.IsHalfOpen ∧
    ((cbC7.callService envC7.svc).2).isSome = true ∧
    (cbC7.Call envC7).1.FailureCount ≠ cbC7.Settings.FailureThreshold := by
  refine ⟨rfl, rfl, by decide, rfl, by decide⟩

/-- C7 amended: a failing probing call on a breaker at the threshold, with a
fallback configured, increments the failure count to threshold plus one and
updates the last-failure timestamp; evaluating the post-call state at the
failure instant (with a non-negative retry period) the breaker returns to
Blocked. -/
theorem c7_probing_failure_increments_count (cb : CircuitBreaker) (env : CallEnv)
    (hfb : cb.Settings.hasFallback = true)
    (hcount : cb.FailureCount = cb.Settings.FailureThreshold)
    (hpre : cb.State env.tPre = CircuitState.IsHalfOpen)
    (hfail : ((cb.callService env.svc).2).isSome = true)
    (hretry : 0 ≤ cb.Settings.RetryTimePeriod)
    (hpost : env.tPost = env.tFail) :
    (cb.Call env).1.FailureCount = cb.Settings.FailureThreshold + 1 ∧
    (cb.Call env).1.LastFailureTime = env.tFail ∧
    (cb.Call env).2.postState = CircuitState.IsOpen := by
  obtain ⟨e, he⟩ := Option.isSome_iff_exists.mp hfail
  rcases env with ⟨tPre, tFail, tPost, svc, ⟨fbc, fbe⟩⟩
  simp only at hpre hpost he ⊢
  subst hpost
  have hfall : (cb.selectiveCall (cb.State tPre) svc (fbc, fbe)).2.1 = true := by
    rw [hpre]
    rcases fbe with _ | fe <;>
      simp [CircuitBreaker.selectiveCall, CircuitBreaker.passthroughCall, he,
        CircuitBreaker.mayCallFallback, hfb]
  have h1 : (cb.Call ⟨tPre, tPost, tPost, svc, (fbc, fbe)⟩).1 =
      cb.recordFailure tPost (cb.selectiveCall (cb.State tPre) svc (fbc, fbe)).2.2 := by
    simp [CircuitBreaker.Call, hfall]
  have h3 : (cb.Call ⟨tPre, tPost, tPost, svc, (fbc, fbe)⟩).2.postState =
      ((cb.Call ⟨tPre, tPost, tPost, svc, (fbc, fbe)⟩).1).State tPost := rfl
  refine ⟨?_, ?_, ?_⟩
  · rw [h1]; simp [CircuitBreaker.recordFailure]; omega
  · rw [h1]; simp [CircuitBreaker.recordFailure]
  · rw [h3, h1]
    exact recordFailure_state_open _ _ _ (by omega) hretry

/-- Concrete threshold breaker for the C7 amended witness. -/
def cbW7 : CircuitBreaker :=
  { Settings :=
      { hasService := true, hasFallback := true, Timeout := 2000,
        RetryTimePeriod := 3000, FailureThreshold := 2,
        OnTrip := false, OnReset := false, OnStateChange := false }
    LastFailureTime := 0
    FailureCount := 2
    FailureRecord := ["e1", "e2"] }

/-- Environment for the C7 amended witness: a probing call that times out. -/
def envW7 : CallEnv :=
  { tPre := 1000, tFail := 2000, tPost := 2000,
    svc := RaceOutcome.timedOut, fb := (some "cached", none) }

/-- Witness for the amended C7 at a concrete probing failure. -/
theorem c7_probing_failure_increments_count_witness :
    (cbW7.Call envW7).1.FailureCount = cbW7.Settings.FailureThreshold + 1 ∧
    (cbW7.Call envW7).1.LastFailureTime = envW7.tFail ∧
    (cbW7.Call envW7).2.postState = CircuitState.IsOpen :=
  c7_probing_failure_increments_count cbW7 envW7 rfl rfl (by decide) rfl (by decide) rfl

/-- C9: the constructor fails exactly when the target service is absent, and
otherwise returns a breaker whose zero-valued timeout, retry period and
threshold have been replaced by the source default constants, all other
settings kept, with cleared counters. -/
theorem c9_constructor_defaults (s : CircuitSettings) :
    (s.hasService = false →
      NewCircuitBreaker s = Except.error "You must provide a service to be called") ∧
    (s.hasService = true → ∃ cb, NewCircuitBreaker s = Except.ok cb ∧
      cb.Settings.Timeout = (if s.Timeout = 0 then DefautTimeout else s.Timeout) ∧
      cb.Settings.RetryTimePeriod =
        (if s.RetryTimePeriod = 0 then DefaultRetryTimePeriod else s.RetryTimePeriod) ∧
      cb.Settings.FailureThreshold =
        (if s.FailureThreshold = 0 then DefautlFailureThreshold else s.FailureThreshold) ∧
      cb.Settings.hasService = s.hasService ∧
      cb.Settings.hasFallback = s.hasFallback ∧
      cb.Settings.OnTrip = s.OnTrip ∧
      cb.Settings.OnReset = s.OnReset ∧
      cb.Settings.OnStateChange = s.OnStateChange ∧
      cb.FailureCount = 0 ∧ cb.FailureRecord = [] ∧ cb.LastFailureTime = 0) := by
  constructor
  · intro h
    simp [NewCircuitBreaker, h]
  · intro h
    by_cases ht : s.Timeout = 0 <;> by_cases hr : s.RetryTimePeriod = 0 <;>
      by_cases hf : s.FailureThreshold = 0 <;>
      simp [NewCircuitBreaker, h, ht, hr, hf]

/-- Settings with a service, an unset timeout and threshold, and an explicit
retry period, for the C9 witness. -/
def sW9 : CircuitSettings :=
  { hasService := true, hasFallback := false, Timeout := 0,
    RetryTimePeriod := 7, FailureThreshold := 0,
    OnTrip := false, OnReset := false, OnStateChange := false }

/-- Witness for C9: defaults fill the unset fields and the explicit retry
period is kept. -/
theorem c9_constructor_defaults_witness :
    ∃ cb, NewCircuitBreaker sW9 = Except.ok cb ∧
      cb.Settings.Timeout = DefautTimeout ∧
      cb.Settings.RetryTimePeriod = 7 ∧
      cb.Settings.FailureThreshold = DefautlFailureThreshold := by
  obtain ⟨cb, hok, hT, hR, hF, -⟩ := (c9_constructor_defaults sW9).2 rfl
  exact ⟨cb, hok, by rw [hT]; decide, by rw [hR]; decide, by rw [hF]; decide⟩

/-- C10: starting from any breaker the constructor returns, after any sequence
of calls the failure count is non-negative and equals the length of the
failure record. -/
theorem c10_failure_count_matches_record (s : CircuitSettings) (cb : CircuitBreaker)
    (envs : List CallEnv) (h : NewCircuitBreaker s = Except.ok cb) :
    0 ≤ (runCalls cb envs).FailureCount ∧
    (runCalls cb envs).FailureCount = ((runCalls cb envs).FailureRecord.length : Int) := by
  obtain ⟨h1, h2⟩ := newCB_fields s cb h
  have hinv := runCalls_inv envs cb (by rw [h1, h2]; rfl)
  refine ⟨?_, hinv⟩
  rw [hinv]
  exact Int.natCast_nonneg _

/-- Settings for the C10 witness: everything defaulted. -/
def sW10 : CircuitSettings :=
  { hasService := true, hasFallback := true, Timeout := 0,
    RetryTimePeriod := 0, FailureThreshold := 0,
    OnTrip := false, OnReset := false, OnStateChange := false }

/-- Breaker the constructor returns for `sW10`. -/
def cbW10 : CircuitBreaker :=
  { Settings :=
      { hasService := true, hasFallback := true, Timeout := 2000,
        RetryTimePeriod := 3000, FailureThreshold := 2,
        OnTrip := false, OnReset := false, OnStateChange := false }
    LastFailureTime := 0
    FailureCount := 0
    FailureRecord := [] }

/-- Environments for the C10 witness: one failing call, one successful call. -/
def envsW10 : List CallEnv :=
  [{ tPre := 10, tFail := 20, tPost := 20,
     svc := RaceOutcome.timedOut, fb := (some "cached", none) },
   { tPre := 30, tFail := 40, tPost := 40,
     svc := RaceOutcome.completed (some "ok") none, fb := (none, none) }]

/-- Witness for C10 at a concrete constructed breaker and call sequence. -/
theorem c10_failure_count_matches_record_witness :
    0 ≤ (runCalls cbW10 envsW10).FailureCount ∧
    (runCalls cbW10 envsW10).FailureCount =
      ((runCalls cbW10 envsW10).FailureRecord.length : Int) :=
  c10_failure_count_matches_record sW10 cbW10 envsW10 rfl

end TinyCB
